import Mathlib

/-!
Verification of the credential lifecycle and authorization portal of
google-cloud-mcp (`src/google_cloud_mcp/server.py`), as a shallow embedding.

The embedding models:
* the `Credentials` value object of the external auth library (validity and
  expiry predicates follow the data model of the spec, which matches the
  library);
* `get_credentials` (the Credential Resolver, server.py lines 40-54);
* the Authorization Portal handler routes `/login` and `/callback`
  (server.py lines 87-127) together with the global `_pending_flow` slot.

Filesystem contents, environment variables and provider responses are
passed in explicitly as an environment record; side effects (file writes,
refresh network calls) are returned as data so theorems can observe them.
-/

namespace GoogleCloudMcp

/-- The fixed scope list, server.py lines 21-30. -/
def SCOPES : List String :=
  [ "https://www.googleapis.com/auth/gmail.modify"
  , "https://www.googleapis.com/auth/gmail.labels"
  , "https://www.googleapis.com/auth/gmail.settings.basic"
  , "https://www.googleapis.com/auth/drive"
  , "https://www.googleapis.com/auth/calendar"
  , "https://www.googleapis.com/auth/documents"
  , "https://www.googleapis.com/auth/spreadsheets"
  , "https://www.googleapis.com/auth/presentations" ]

/-- In-memory credential object, mirroring the fields of the external
credential class that the server uses.  `token` is the access token
(`None` in Python when absent), `expiry` an absolute timestamp in integer
seconds, `scopes` the scope list attached at construction time. -/
structure Credential where
  token : Option String
  refresh_token : Option String
  expiry : Option Int
  scopes : Option (List String)
  client_id : Option String
  client_secret : Option String
deriving DecidableEq, Repr

/-- Modelled from the spec, section 3 (matching the external auth library,
which is not part of this repository): expired = expiry present AND
expiry <= now. -/
def Credential.expiredAt (c : Credential) (now : Int) : Bool :=
  match c.expiry with
  | some e => decide (e ≤ now)
  | none => false

/-- Modelled from the spec, section 3 (matching the external auth library):
valid = access token present AND not expired. -/
def Credential.validAt (c : Credential) (now : Int) : Bool :=
  c.token.isSome && !(c.expiredAt now)

/-- A parsed token record: the JSON object stored in the token file or in
the `GOOGLE_TOKEN_JSON` environment variable.  For the three keys whose
*presence* the library requires, the outer `Option` is key presence and
the inner `Option` distinguishes a JSON null value from a string, since
the library checks presence of the key, not its value. -/
structure TokenRecord where
  token : Option String
  refresh_token : Option (Option String)
  client_id : Option (Option String)
  client_secret : Option (Option String)
  expiry : Option Int
  scopes : Option (List String)
deriving DecidableEq, Repr

/-- Modelled from the spec (the `from_authorized_user_info` constructor of
the external auth library, used at server.py lines 44 and 47, which is not
part of this repository): it fails (raises) unless the keys
`refresh_token`, `client_id` and `client_secret` are present in the
record; on success it builds a credential whose `scopes` are the
*requested* scopes — the scopes stored in the record are ignored. -/
def fromAuthorizedUserInfo (info : TokenRecord) (scopes : List String) :
    Except Unit Credential :=
  if info.refresh_token.isSome && info.client_id.isSome
      && info.client_secret.isSome then
    Except.ok
      { token := info.token
      , refresh_token := info.refresh_token.getD none
      , expiry := info.expiry
      , scopes := some scopes
      , client_id := info.client_id.getD none
      , client_secret := info.client_secret.getD none }
  else Except.error ()

/-- External state visible to `get_credentials`: the environment variable
`GOOGLE_TOKEN_JSON` (outer `Option`: variable set to a non-empty string;
inner `Option`: the string parses as a JSON object), the token file
contents (`none` = file absent), the provider answer to a refresh call
(new access token and expires_in), and the configured portal port. -/
structure ResolverEnv where
  tokenJsonEnv : Option (Option TokenRecord)
  tokenFile : Option TokenRecord
  refreshResponse : Except Unit (String × Int)
  authPort : Nat
deriving Repr

inductive ResolverError where
  | notAuthenticated (msg : String)
  | fileParseError
  | refreshFailed
deriving DecidableEq, Repr

/-- Outcome of one `get_credentials` call: the returned credential or the
raised error, whether a refresh network call was made, and what (if
anything) was written to the token file. -/
structure ResolveOutcome where
  result : Except ResolverError Credential
  refreshCalled : Bool
  fileWritten : Option Credential

def portalUrl (port : Nat) : String :=
  "http://localhost:" ++ toString port

/-- The message of the RuntimeError raised at server.py lines 51-53. -/
def notAuthMsg (port : Nat) : String :=
  "Not authenticated. Please open " ++ portalUrl port
    ++ " in your browser to authorize with Google."

/-- Step 1 of `get_credentials` (server.py lines 42-45): parse the
environment token; every failure is swallowed by the bare except clause. -/
def envCreds (env : ResolverEnv) : Option Credential :=
  match env.tokenJsonEnv with
  | none => none
  | some none => none
  | some (some tr) => (fromAuthorizedUserInfo tr SCOPES).toOption

/-- Steps 1-2 of `get_credentials` (server.py lines 42-47): if the step-1
credential is absent or not valid and the token file exists, the file is
loaded (an uncaught parse failure propagates), replacing the step-1
result. -/
def loadStep (env : ResolverEnv) (now : Int) :
    Except ResolverError (Option Credential) :=
  if (envCreds env).all (fun c => !(c.validAt now)) then
    match env.tokenFile with
    | some tr =>
      match fromAuthorizedUserInfo tr SCOPES with
      | Except.ok c => Except.ok (some c)
      | Except.error _ => Except.error ResolverError.fileParseError
    | none => Except.ok (envCreds env)
  else Except.ok (envCreds env)

/-- The Credential Resolver, `get_credentials` (server.py lines 40-54).
After steps 1-2, an expired credential carrying a refresh token is
refreshed in place (token and expiry replaced from the provider response;
a failed refresh propagates); then a missing or still-invalid credential
raises the not-authenticated error naming the portal URL.  No branch of
the source writes the token file, hence `fileWritten` is always `none`. -/
def getCredentials (env : ResolverEnv) (now : Int) : ResolveOutcome :=
  match loadStep env now with
  | Except.error e => ⟨Except.error e, false, none⟩
  | Except.ok none =>
      ⟨Except.error (ResolverError.notAuthenticated (notAuthMsg env.authPort)),
       false, none⟩
  | Except.ok (some c) =>
      if c.expiredAt now && c.refresh_token.isSome then
        match env.refreshResponse with
        | Except.error _ =>
            ⟨Except.error ResolverError.refreshFailed, true, none⟩
        | Except.ok (tok, expiresIn) =>
          let c2 := { c with token := some tok, expiry := some (now + expiresIn) }
          if c2.validAt now then ⟨Except.ok c2, true, none⟩
          else
            ⟨Except.error
               (ResolverError.notAuthenticated (notAuthMsg env.authPort)),
             true, none⟩
      else
        if c.validAt now then ⟨Except.ok c, false, none⟩
        else
          ⟨Except.error
             (ResolverError.notAuthenticated (notAuthMsg env.authPort)),
           false, none⟩

/-- Serialization of a credential back to a token record, as the
to_json method of the library would write it. -/
def credToRecord (c : Credential) : TokenRecord :=
  { token := c.token
  , refresh_token := some c.refresh_token
  , client_id := some c.client_id
  , client_secret := some c.client_secret
  , expiry := c.expiry
  , scopes := c.scopes }

/-- The external state after one `get_credentials` call: the token file is
replaced when the call wrote it, and untouched otherwise. -/
def afterResolve (env : ResolverEnv) (now : Int) : ResolverEnv :=
  match (getCredentials env now).fileWritten with
  | some c => { env with tokenFile := some (credToRecord c) }
  | none => env

/-- Substring containment, as an explicit decomposition. -/
def containsStr (s sub : String) : Prop :=
  ∃ pre post : String, s = pre ++ sub ++ post

/-- Truthiness of an optional environment string, as Python sees it:
unset or empty is falsy. -/
def truthy : Option String → Bool
  | none => false
  | some s => !s.isEmpty

/-- Client identity and flow configuration held by an Authorization Flow. -/
structure FlowConfig where
  client_id : String
  client_secret : String
  scopes : List String
  redirect_uri : String
deriving DecidableEq, Repr

/-- A pending Authorization Flow; `exchanged` records that its one-time
code exchange has been attempted (the flow is consumed). -/
structure Flow where
  config : FlowConfig
  exchanged : Bool
deriving DecidableEq, Repr

/-- Scope list joined into the single scope query value. -/
def joinScopes : List String → String
  | [] => ""
  | [s] => s
  | s :: t :: rest => s ++ "+" ++ joinScopes (t :: rest)

/-- Modelled from the spec, section 4.3 (the authorization_url method of
the external OAuth flow library, which is not part of this repository):
deterministically builds the provider consent URL encoding the client
identity, every requested scope and the redirect target, with the flags
the handler passes at server.py line 96 (access_type=offline,
prompt=consent). -/
def authorizationUrl (cfg : FlowConfig) : String :=
  "https://accounts.google.com/o/oauth2/auth?response_type=code&client_id="
    ++ cfg.client_id
    ++ "&redirect_uri=" ++ cfg.redirect_uri
    ++ "&scope=" ++ joinScopes cfg.scopes
    ++ "&access_type=offline&prompt=consent"

/-- Response of the `/login` route together with the pending-flow slot it
leaves behind. -/
structure LoginResult where
  status : Nat
  location : Option String
  pendingAfter : Option Flow
deriving DecidableEq, Repr

/-- The flow configuration built by the `/login` handler from inline
client id and secret (server.py lines 88-93). -/
def loginCfg (cid csec : String) (port : Nat) : FlowConfig :=
  { client_id := cid
  , client_secret := csec
  , scopes := SCOPES
  , redirect_uri := "http://localhost:" ++ toString port ++ "/callback" }

/-- The `/login` branch of `AuthPortalHandler.do_GET` (server.py lines
87-99): with inline client id and secret configured, a fresh flow is built
from them with the fixed scopes and the local callback redirect; otherwise
the client identity comes from the credentials file (`credFileIdentity`,
modelling from_client_secrets_file; the model assumes that file is
readable).  The flow is stored in the global pending slot and the response
is a 302 redirect to its authorization URL. -/
def doLogin (clientId clientSecret : Option String)
    (credFileIdentity : String × String) (port : Nat) : LoginResult :=
  let cfg : FlowConfig :=
    if truthy clientId && truthy clientSecret then
      { client_id := clientId.getD ""
      , client_secret := clientSecret.getD ""
      , scopes := SCOPES
      , redirect_uri := "http://localhost:" ++ toString port ++ "/callback" }
    else
      { client_id := credFileIdentity.1
      , client_secret := credFileIdentity.2
      , scopes := SCOPES
      , redirect_uri := "http://localhost:" ++ toString port ++ "/callback" }
  { status := 302
  , location := some (authorizationUrl cfg)
  , pendingAfter := some { config := cfg, exchanged := false } }

/-- Response of the `/callback` route: HTTP status, what was written to
the token file (the Credential Store), whether a token exchange with the
provider was attempted, and the pending-flow slot left behind. -/
structure CallbackResult where
  status : Nat
  storeWrite : Option Credential
  fetchAttempted : Bool
  pendingAfter : Option Flow
deriving DecidableEq, Repr

/-- The `/callback` branch of `AuthPortalHandler.do_GET` (server.py lines
101-127).  The whole body runs under a try block whose handler catches
every exception, so each failure (missing code, empty pending slot,
provider rejecting the code) ends in the 500 error page rather than an
unhandled exception — totality of this function is the image of that.
The token file is written only after a successful exchange, and the
pending slot is never cleared: a fetch merely marks the flow consumed. -/
def doCallback (pending : Option Flow) (code : Option String)
    (fetch : Except String Credential) : CallbackResult :=
  if !(truthy code) then
    { status := 500, storeWrite := none, fetchAttempted := false
    , pendingAfter := pending }
  else
    match pending with
    | none =>
        { status := 500, storeWrite := none, fetchAttempted := false
        , pendingAfter := pending }
    | some flow =>
        match fetch with
        | Except.error _ =>
            { status := 500, storeWrite := none, fetchAttempted := true
            , pendingAfter := some { flow with exchanged := true } }
        | Except.ok cred =>
            { status := 200, storeWrite := some cred, fetchAttempted := true
            , pendingAfter := some { flow with exchanged := true } }

/-- Token record carrying a valid environment credential (counterexample
input for the precedence claim). -/
def recEnvC1 : TokenRecord :=
  { token := some "envtok"
  , refresh_token := some (some "r1")
  , client_id := some (some "cid")
  , client_secret := some (some "cs")
  , expiry := some 1000
  , scopes := some SCOPES }

/-- Token file record with a different access token than `recEnvC1`. -/
def recFileC1 : TokenRecord := { recEnvC1 with token := some "filetok" }

/-- State with both a valid environment token and a token file present. -/
def envC1 : ResolverEnv :=
  { tokenJsonEnv := some (some recEnvC1)
  , tokenFile := some recFileC1
  , refreshResponse := Except.error ()
  , authPort := 3838 }

/-- The credential the environment token of `envC1` parses to. -/
def credEnvC1 : Credential :=
  { token := some "envtok", refresh_token := some "r1", expiry := some 1000
  , scopes := some SCOPES, client_id := some "cid", client_secret := some "cs" }

/-- The credential the token file of `envC1` parses to. -/
def credFileC1 : Credential := { credEnvC1 with token := some "filetok" }

/-- Token file record holding an expired credential with a refresh token
(scenario C of the spec: expiry one hour in the past). -/
def recC2 : TokenRecord :=
  { token := some "abc"
  , refresh_token := some (some "r1")
  , client_id := some (some "cid")
  , client_secret := some (some "cs")
  , expiry := some (-3600)
  , scopes := some SCOPES }

/-- State for scenario C: expired file credential, provider refresh
endpoint answering with token xyz valid for 3600 seconds. -/
def envC2 : ResolverEnv :=
  { tokenJsonEnv := none
  , tokenFile := some recC2
  , refreshResponse := Except.ok ("xyz", 3600)
  , authPort := 3838 }

/-- The refreshed credential scenario C produces in memory. -/
def credC2new : Credential :=
  { token := some "xyz", refresh_token := some "r1", expiry := some 3600
  , scopes := some SCOPES, client_id := some "cid", client_secret := some "cs" }

/-- State for scenario A: no environment token, no token file. -/
def envC3 : ResolverEnv :=
  { tokenJsonEnv := none, tokenFile := none
  , refreshResponse := Except.error (), authPort := 3838 }

/-- Token file record whose refresh_token key is present with a null
value: the library constructor accepts it and yields a credential without
a refresh token. -/
def recC4 : TokenRecord :=
  { token := some "abc"
  , refresh_token := some none
  , client_id := some (some "cid")
  , client_secret := some (some "cs")
  , expiry := some 0
  , scopes := some SCOPES }

/-- State whose only source is `recC4`. -/
def envC4 : ResolverEnv :=
  { tokenJsonEnv := none, tokenFile := some recC4
  , refreshResponse := Except.error (), authPort := 3838 }

/-- The expired, refresh-token-free credential `recC4` parses to. -/
def credC4 : Credential :=
  { token := some "abc", refresh_token := none, expiry := some 0
  , scopes := some SCOPES, client_id := some "cid", client_secret := some "cs" }

/-- Token file record holding a valid, non-expired credential with a
refresh token (scenario B of the spec: expiry one hour in the future). -/
def recC7 : TokenRecord :=
  { token := some "abc"
  , refresh_token := some (some "r1")
  , client_id := some (some "cid")
  , client_secret := some (some "cs")
  , expiry := some 3600
  , scopes := some SCOPES }

/-- State for scenario B: no environment token, valid file credential. -/
def envC7 : ResolverEnv :=
  { tokenJsonEnv := none, tokenFile := some recC7
  , refreshResponse := Except.error (), authPort := 3838 }

/-- The valid credential `recC7` parses to. -/
def credC7 : Credential :=
  { token := some "abc", refresh_token := some "r1", expiry := some 3600
  , scopes := some SCOPES, client_id := some "cid", client_secret := some "cs" }

/-- Token file record whose stored scopes are a strict subset of
`SCOPES`, otherwise valid and non-expired. -/
def recC8 : TokenRecord :=
  { token := some "abc"
  , refresh_token := some (some "r1")
  , client_id := some (some "cid")
  , client_secret := some (some "cs")
  , expiry := some 3600
  , scopes := some ["https://www.googleapis.com/auth/gmail.modify"] }

/-- State whose only source is the under-scoped record `recC8`. -/
def envC8 : ResolverEnv :=
  { tokenJsonEnv := none, tokenFile := some recC8
  , refreshResponse := Except.error (), authPort := 3838 }

/-- The credential `recC8` parses to; note the constructor attaches the
requested `SCOPES`, ignoring the scopes stored in the record. -/
def credC8 : Credential :=
  { token := some "abc", refresh_token := some "r1", expiry := some 3600
  , scopes := some SCOPES, client_id := some "cid", client_secret := some "cs" }

/-- State whose environment token is set but is not valid JSON. -/
def envC9 : ResolverEnv :=
  { tokenJsonEnv := some none, tokenFile := none
  , refreshResponse := Except.error (), authPort := 3838 }

/-- A pending flow as `/login` would store it. -/
def flowC10 : Flow :=
  { config :=
      { client_id := "cid", client_secret := "cs", scopes := SCOPES
      , redirect_uri := "http://localhost:3838/callback" }
  , exchanged := false }

/-- A credential as a successful code exchange would return it. -/
def credC10 : Credential :=
  { token := some "tok", refresh_token := some "r", expiry := some 3600
  , scopes := some SCOPES, client_id := some "cid", client_secret := some "cs" }

theorem containsStr_self (s : String) : containsStr s s :=
  ⟨"", "", by simp⟩

theorem containsStr_append_left {a sub : String} (b : String)
    (h : containsStr a sub) : containsStr (a ++ b) sub := by
  obtain ⟨p, q, rfl⟩ := h
  exact ⟨p, q ++ b, by rw [String.append_assoc]⟩

theorem containsStr_append_right (a : String) {b sub : String}
    (h : containsStr b sub) : containsStr (a ++ b) sub := by
  obtain ⟨p, q, rfl⟩ := h
  exact ⟨a ++ p, q, by simp [String.append_assoc]⟩

theorem joinScopes_contains :
    ∀ (l : List String) (s : String), s ∈ l → containsStr (joinScopes l) s
  | [], s, h => absurd h (List.not_mem_nil s)
  | [t], s, h => by
      rcases List.mem_singleton.mp h with rfl
      simpa [joinScopes] using containsStr_self s
  | t :: u :: rest, s, h => by
      rcases List.mem_cons.mp h with rfl | h
      · exact containsStr_append_left _
          (containsStr_append_left _ (containsStr_self s))
      · exact containsStr_append_right _
          (joinScopes_contains (u :: rest) s h)

theorem authorizationUrl_contains_client_id (cfg : FlowConfig) :
    containsStr (authorizationUrl cfg) ("client_id=" ++ cfg.client_id) := by
  unfold authorizationUrl
  apply containsStr_append_left
  apply containsStr_append_left
  apply containsStr_append_left
  apply containsStr_append_left
  apply containsStr_append_left
  refine ⟨"https://accounts.google.com/o/oauth2/auth?response_type=code&", "", ?_⟩
  have hbase :
      ("https://accounts.google.com/o/oauth2/auth?response_type=code&client_id="
        : String)
      = "https://accounts.google.com/o/oauth2/auth?response_type=code&"
          ++ "client_id=" := by decide
  rw [hbase, String.append_assoc, String.append_empty]

theorem authorizationUrl_contains_scope (cfg : FlowConfig) (s : String)
    (h : s ∈ cfg.scopes) : containsStr (authorizationUrl cfg) s := by
  unfold authorizationUrl
  apply containsStr_append_left
  apply containsStr_append_right
  exact joinScopes_contains cfg.scopes s h

theorem authorizationUrl_contains_offline (cfg : FlowConfig) :
    containsStr (authorizationUrl cfg) "access_type=offline" := by
  unfold authorizationUrl
  apply containsStr_append_right
  exact ⟨"&", "&prompt=consent", by decide⟩

theorem authorizationUrl_contains_consent (cfg : FlowConfig) :
    containsStr (authorizationUrl cfg) "prompt=consent" := by
  unfold authorizationUrl
  apply containsStr_append_right
  exact ⟨"&access_type=offline&", "", by decide⟩

theorem loadStep_of_file (env : ResolverEnv) (now : Int)
    (tr : TokenRecord) (c : Credential)
    (henv : env.tokenJsonEnv = none)
    (hfile : env.tokenFile = some tr)
    (hparse : fromAuthorizedUserInfo tr SCOPES = Except.ok c) :
    loadStep env now = Except.ok (some c) := by
  have h0 : envCreds env = none := by simp [envCreds, henv]
  simp [loadStep, h0, hfile, hparse, Option.all]

theorem getCredentials_of_valid (env : ResolverEnv) (now : Int)
    (c : Credential)
    (hload : loadStep env now = Except.ok (some c))
    (hvalid : c.validAt now = true) :
    getCredentials env now = ⟨Except.ok c, false, none⟩ := by
  have hexp : c.expiredAt now = false := by
    cases hE : c.expiredAt now
    · rfl
    · unfold Credential.validAt at hvalid
      rw [hE] at hvalid
      simp at hvalid
  simp [getCredentials, hload, hexp, hvalid]

theorem getCredentials_congr (env env₂ : ResolverEnv) (now : Int)
    (h1 : loadStep env now = loadStep env₂ now)
    (h2 : env.refreshResponse = env₂.refreshResponse)
    (h3 : env.authPort = env₂.authPort) :
    getCredentials env now = getCredentials env₂ now := by
  unfold getCredentials
  rw [h1, h2, h3]

/-- C1 counterexample: with a token file present and an environment token
that parses to a valid credential, `get_credentials` returns the
environment credential, not the one in the file, so the file does not
overwrite a valid step-1 result. -/
theorem c1_counterexample :
    envCreds envC1 = some credEnvC1
      ∧ credEnvC1.validAt 0 = true
      ∧ envC1.tokenFile = some recFileC1
      ∧ fromAuthorizedUserInfo recFileC1 SCOPES = Except.ok credFileC1
      ∧ (getCredentials envC1 0).result = Except.ok credEnvC1
      ∧ credEnvC1 ≠ credFileC1 :=
  ⟨rfl, rfl, rfl, rfl, rfl, by decide⟩

/-- C1 amended: the token file overwrites the step-1 environment
credential only when that credential is absent or invalid; whenever the
environment token yields a valid credential, `get_credentials` returns it
and the token file contents have no influence on the result. -/
theorem c1_amended_env_valid_wins (env : ResolverEnv) (now : Int)
    (c : Credential)
    (henv : envCreds env = some c) (hvalid : c.validAt now = true) :
    (getCredentials env now).result = Except.ok c
      ∧ ∀ tf : Option TokenRecord,
          (getCredentials { env with tokenFile := tf } now).result
            = Except.ok c := by
  have key : ∀ env₂ : ResolverEnv, envCreds env₂ = some c →
      (getCredentials env₂ now).result = Except.ok c := by
    intro env₂ h₂
    have hload : loadStep env₂ now = Except.ok (some c) := by
      simp [loadStep, h₂, hvalid, Option.all]
    rw [getCredentials_of_valid env₂ now c hload hvalid]
  exact ⟨key env henv, fun tf => key { env with tokenFile := tf } henv⟩

/-- C1 amended, witness at the concrete counterexample state. -/
theorem c1_amended_witness :
    (getCredentials envC1 0).result = Except.ok credEnvC1
      ∧ ∀ tf : Option TokenRecord,
          (getCredentials { envC1 with tokenFile := tf } 0).result
            = Except.ok credEnvC1 :=
  c1_amended_env_valid_wins envC1 0 credEnvC1 rfl rfl

/-- C2: at scenario C (expired file credential with refresh token,
provider refresh answering xyz), `get_credentials` returns the refreshed
credential and performs the refresh call, but writes nothing back to the
token file — the renewed credential is NOT persisted to the Store. -/
theorem c2_refresh_not_persisted :
    (getCredentials envC2 0).result = Except.ok credC2new
      ∧ (getCredentials envC2 0).refreshCalled = true
      ∧ (getCredentials envC2 0).fileWritten = none :=
  ⟨rfl, rfl, rfl⟩

/-- C3: with no environment token and no token file, `get_credentials`
raises the not-authenticated error, whose message contains the portal
URL, and makes no refresh call. -/
theorem c3_no_sources_not_authenticated (env : ResolverEnv) (now : Int)
    (henv : env.tokenJsonEnv = none) (hfile : env.tokenFile = none) :
    (getCredentials env now).result
        = Except.error
            (ResolverError.notAuthenticated (notAuthMsg env.authPort))
      ∧ containsStr (notAuthMsg env.authPort) (portalUrl env.authPort)
      ∧ (getCredentials env now).refreshCalled = false := by
  have h0 : envCreds env = none := by simp [envCreds, henv]
  have hload : loadStep env now = Except.ok none := by
    simp [loadStep, h0, hfile, Option.all]
  refine ⟨?_, ?_, ?_⟩
  · simp [getCredentials, hload]
  · exact ⟨"Not authenticated. Please open ",
      " in your browser to authorize with Google.", rfl⟩
  · simp [getCredentials, hload]

/-- C3 witness at the concrete scenario-A state. -/
theorem c3_witness :
    (getCredentials envC3 0).result
        = Except.error
            (ResolverError.notAuthenticated (notAuthMsg envC3.authPort))
      ∧ containsStr (notAuthMsg envC3.authPort) (portalUrl envC3.authPort)
      ∧ (getCredentials envC3 0).refreshCalled = false :=
  c3_no_sources_not_authenticated envC3 0 rfl rfl

/-- C4: when the resolved credential is expired and carries no refresh
token, `get_credentials` raises the not-authenticated error and never
makes a refresh network call. -/
theorem c4_expired_no_refresh_token (env : ResolverEnv) (now : Int)
    (c : Credential)
    (hload : loadStep env now = Except.ok (some c))
    (hexp : c.expiredAt now = true) (hrt : c.refresh_token = none) :
    (getCredentials env now).result
        = Except.error
            (ResolverError.notAuthenticated (notAuthMsg env.authPort))
      ∧ (getCredentials env now).refreshCalled = false := by
  have hval : c.validAt now = false := by
    simp [Credential.validAt, hexp]
  constructor <;> simp [getCredentials, hload, hexp, hrt, hval]

/-- C4 witness: a token file whose refresh_token is null yields an
expired credential with no refresh token; the resolver hard-stops. -/
theorem c4_witness :
    (getCredentials envC4 100).result
        = Except.error
            (ResolverError.notAuthenticated (notAuthMsg envC4.authPort))
      ∧ (getCredentials envC4 100).refreshCalled = false :=
  c4_expired_no_refresh_token envC4 100 credC4 rfl rfl rfl

/-- C5: a `/callback` request with the code parameter missing, or with an
empty pending-flow slot, answers with the 500 error page, writes nothing
to the Credential Store and attempts no token exchange; the handler is a
total function, so no exception escapes it. -/
theorem c5_callback_guard (pending : Option Flow) (code : Option String)
    (fetch : Except String Credential)
    (h : code = none ∨ pending = none) :
    (doCallback pending code fetch).status = 500
      ∧ (doCallback pending code fetch).storeWrite = none
      ∧ (doCallback pending code fetch).fetchAttempted = false := by
  rcases h with rfl | rfl
  · simp [doCallback, truthy]
  · cases code with
    | none => simp [doCallback, truthy]
    | some s => cases hs : s.isEmpty <;> simp [doCallback, truthy, hs]

/-- C5 witness: a callback carrying a code but arriving with no pending
flow is rejected with 500 and no store write. -/
theorem c5_witness :
    (doCallback none (some "badcode") (Except.error "x")).status = 500
      ∧ (doCallback none (some "badcode") (Except.error "x")).storeWrite = none
      ∧ (doCallback none (some "badcode") (Except.error "x")).fetchAttempted
          = false :=
  c5_callback_guard none (some "badcode") (Except.error "x") (Or.inr rfl)

/-- C6: a `/login` request with inline client id and secret configured
stores a fresh flow in the pending slot and answers 302 with a Location
equal to the authorization URL, which contains the configured client id,
every configured scope, and the access_type=offline and prompt=consent
flags. -/
theorem c6_login_inline (cid csec : String) (fileId : String × String)
    (port : Nat)
    (hcid : cid.isEmpty = false) (hcsec : csec.isEmpty = false) :
    (doLogin (some cid) (some csec) fileId port).status = 302
      ∧ (doLogin (some cid) (some csec) fileId port).pendingAfter
          = some { config := loginCfg cid csec port, exchanged := false }
      ∧ (doLogin (some cid) (some csec) fileId port).location
          = some (authorizationUrl (loginCfg cid csec port))
      ∧ containsStr (authorizationUrl (loginCfg cid csec port))
          ("client_id=" ++ cid)
      ∧ (∀ s ∈ SCOPES,
          containsStr (authorizationUrl (loginCfg cid csec port)) s)
      ∧ containsStr (authorizationUrl (loginCfg cid csec port))
          "access_type=offline"
      ∧ containsStr (authorizationUrl (loginCfg cid csec port))
          "prompt=consent" := by
  have hflow : doLogin (some cid) (some csec) fileId port
      = { status := 302
        , location := some (authorizationUrl (loginCfg cid csec port))
        , pendingAfter :=
            some { config := loginCfg cid csec port, exchanged := false } } := by
    simp [doLogin, truthy, hcid, hcsec, loginCfg]
  refine ⟨by rw [hflow], by rw [hflow], by rw [hflow], ?_, ?_, ?_, ?_⟩
  · exact authorizationUrl_contains_client_id (loginCfg cid csec port)
  · intro s hs
    exact authorizationUrl_contains_scope (loginCfg cid csec port) s hs
  · exact authorizationUrl_contains_offline (loginCfg cid csec port)
  · exact authorizationUrl_contains_consent (loginCfg cid csec port)

/-- C6 witness at a concrete inline client identity. -/
theorem c6_witness :
    (doLogin (some "test-client") (some "s3cret") ("fid", "fsec") 3838).status
        = 302
      ∧ (doLogin (some "test-client") (some "s3cret") ("fid", "fsec")
            3838).pendingAfter
          = some { config := loginCfg "test-client" "s3cret" 3838
                 , exchanged := false }
      ∧ (doLogin (some "test-client") (some "s3cret") ("fid", "fsec")
            3838).location
          = some (authorizationUrl (loginCfg "test-client" "s3cret" 3838))
      ∧ containsStr (authorizationUrl (loginCfg "test-client" "s3cret" 3838))
          ("client_id=" ++ "test-client")
      ∧ (∀ s ∈ SCOPES,
          containsStr
            (authorizationUrl (loginCfg "test-client" "s3cret" 3838)) s)
      ∧ containsStr (authorizationUrl (loginCfg "test-client" "s3cret" 3838))
          "access_type=offline"
      ∧ containsStr (authorizationUrl (loginCfg "test-client" "s3cret" 3838))
          "prompt=consent" :=
  c6_login_inline "test-client" "s3cret" ("fid", "fsec") 3838 rfl rfl

/-- C7: with no environment token and a token file holding a valid,
non-expired credential, `get_credentials` returns that credential, makes
no refresh call and writes nothing; since the call leaves the external
state unchanged, a second call on the post-state returns the same
outcome. -/
theorem c7_valid_file_credential_returned (env : ResolverEnv) (now : Int)
    (tr : TokenRecord) (c : Credential)
    (henv : env.tokenJsonEnv = none)
    (hfile : env.tokenFile = some tr)
    (hparse : fromAuthorizedUserInfo tr SCOPES = Except.ok c)
    (hvalid : c.validAt now = true) :
    (getCredentials env now).result = Except.ok c
      ∧ (getCredentials env now).refreshCalled = false
      ∧ (getCredentials env now).fileWritten = none
      ∧ getCredentials (afterResolve env now) now = getCredentials env now := by
  have hout : getCredentials env now = ⟨Except.ok c, false, none⟩ :=
    getCredentials_of_valid env now c
      (loadStep_of_file env now tr c henv hfile hparse) hvalid
  have hafter : afterResolve env now = env := by
    simp [afterResolve, hout]
  exact ⟨by rw [hout], by rw [hout], by rw [hout], by rw [hafter]⟩

/-- C7 witness at the concrete scenario-B state. -/
theorem c7_witness :
    (getCredentials envC7 0).result = Except.ok credC7
      ∧ (getCredentials envC7 0).refreshCalled = false
      ∧ (getCredentials envC7 0).fileWritten = none
      ∧ getCredentials (afterResolve envC7 0) 0 = getCredentials envC7 0 :=
  c7_valid_file_credential_returned envC7 0 recC7 credC7 rfl rfl rfl rfl

/-- C8 counterexample: a stored credential whose scopes are a strict
subset of the requested `SCOPES` is returned by `get_credentials` rather
than being treated as invalid — no scope-sufficiency check exists. -/
theorem c8_counterexample :
    recC8.scopes = some ["https://www.googleapis.com/auth/gmail.modify"]
      ∧ ["https://www.googleapis.com/auth/gmail.modify"] ⊆ SCOPES
      ∧ "https://www.googleapis.com/auth/drive" ∈ SCOPES
      ∧ "https://www.googleapis.com/auth/drive"
          ∉ ["https://www.googleapis.com/auth/gmail.modify"]
      ∧ (getCredentials envC8 0).result = Except.ok credC8 :=
  ⟨rfl, by decide, by decide, by decide, rfl⟩

/-- C8 amended: `get_credentials` performs no scope-sufficiency check: a
stored credential whose scopes are a strict subset of the requested set
is accepted and returned whenever it is otherwise valid; the stored
scopes are discarded and the requested scopes attached instead. -/
theorem c8_amended_scopes_not_checked (env : ResolverEnv) (now : Int)
    (tr : TokenRecord) (ss : List String) (c : Credential)
    (henv : env.tokenJsonEnv = none)
    (hfile : env.tokenFile = some tr)
    (_hscopes : tr.scopes = some ss)
    (_hsub : ss ⊆ SCOPES) (_hstrict : ¬ SCOPES ⊆ ss)
    (hparse : fromAuthorizedUserInfo tr SCOPES = Except.ok c)
    (hvalid : c.validAt now = true) :
    (getCredentials env now).result = Except.ok c
      ∧ c.scopes = some SCOPES := by
  have hout : getCredentials env now = ⟨Except.ok c, false, none⟩ :=
    getCredentials_of_valid env now c
      (loadStep_of_file env now tr c henv hfile hparse) hvalid
  refine ⟨by rw [hout], ?_⟩
  unfold fromAuthorizedUserInfo at hparse
  split at hparse
  · cases hparse
    rfl
  · cases hparse

/-- C8 amended, witness at the concrete under-scoped state. -/
theorem c8_witness :
    (getCredentials envC8 0).result = Except.ok credC8
      ∧ credC8.scopes = some SCOPES :=
  c8_amended_scopes_not_checked envC8 0 recC8
    ["https://www.googleapis.com/auth/gmail.modify"] credC8
    rfl rfl rfl (by decide) (by decide) rfl rfl

/-- C9: when the environment token is set but fails to parse into a
credential, the failure is swallowed and `get_credentials` behaves
exactly as if the environment token were absent. -/
theorem c9_env_parse_failure_swallowed (env : ResolverEnv) (now : Int)
    (x : Option TokenRecord)
    (_hset : env.tokenJsonEnv = some x)
    (hfail : envCreds env = none) :
    getCredentials env now
      = getCredentials { env with tokenJsonEnv := none } now := by
  have hnone : envCreds { env with tokenJsonEnv := none } = none := rfl
  apply getCredentials_congr
  · simp [loadStep, hfail, hnone]
  · rfl
  · rfl

/-- C9 witness: a malformed environment token resolves identically to an
absent one. -/
theorem c9_witness :
    getCredentials envC9 0
      = getCredentials { envC9 with tokenJsonEnv := none } 0 :=
  c9_env_parse_failure_swallowed envC9 0 none rfl rfl

/-- C10: a successful `/callback` exchange leaves the pending-flow slot
holding the consumed flow, so a later `/callback` with a code and no
intervening `/login` attempts another token exchange instead of being
rejected for lack of a pending flow. -/
theorem c10_pending_flow_not_cleared (flow : Flow) (code1 code2 : String)
    (cred : Credential) (fetch2 : Except String Credential)
    (h1 : code1.isEmpty = false) (h2 : code2.isEmpty = false) :
    (doCallback (some flow) (some code1) (Except.ok cred)).status = 200
      ∧ (doCallback (some flow) (some code1) (Except.ok cred)).storeWrite
          = some cred
      ∧ (doCallback (some flow) (some code1) (Except.ok cred)).pendingAfter
          = some { flow with exchanged := true }
      ∧ (doCallback
            ((doCallback (some flow) (some code1) (Except.ok cred)).pendingAfter)
            (some code2) fetch2).fetchAttempted = true := by
  have hfirst : doCallback (some flow) (some code1) (Except.ok cred)
      = { status := 200, storeWrite := some cred, fetchAttempted := true
        , pendingAfter := some { flow with exchanged := true } } := by
    simp [doCallback, truthy, h1]
  refine ⟨by rw [hfirst], by rw [hfirst], by rw [hfirst], ?_⟩
  rw [hfirst]
  cases fetch2 <;> simp [doCallback, truthy, h2]

/-- C10 witness: after a successful exchange with code a, a second
callback with code b still attempts an exchange. -/
theorem c10_witness :
    (doCallback (some flowC10) (some "a") (Except.ok credC10)).status = 200
      ∧ (doCallback (some flowC10) (some "a") (Except.ok credC10)).storeWrite
          = some credC10
      ∧ (doCallback (some flowC10) (some "a") (Except.ok credC10)).pendingAfter
          = some { flowC10 with exchanged := true }
      ∧ (doCallback
            ((doCallback (some flowC10) (some "a")
                (Except.ok credC10)).pendingAfter)
            (some "b") (Except.error "invalid_grant")).fetchAttempted = true :=
  c10_pending_flow_not_cleared flowC10 "a" "b" credC10
    (Except.error "invalid_grant") rfl rfl

end GoogleCloudMcp
